import Mathlib

/-!
Verification of the opendata.zh catalogue client (src/src/opendata.py and
src/src/get_dataset_type.py) via a shallow embedding in Lean.

Python dataframes of records become Lean lists of structures; `np.nan`
markers and `None` returns become `Option.none`; raised exceptions become
explicit error constructors.  Remote HTTP endpoints are parameters of the
functions that call them (a fetch function, a decoded show-endpoint
response), so every embedded operation is a pure function of its inputs.
-/

namespace OpendataZH

/-- Model of one CKAN resource (distribution) record: the fields the code
under verification reads.  `format` is `Option` because the Python code
accesses it with `x.get("format", "")`, defaulting when absent. -/
structure Resource where
  format : Option String
  id : String
  url : String
deriving Repr, DecidableEq

/-- Shorthand for `x.get("format", "")`: the format string with `""` as the
default for a missing key. -/
def Resource.fmt (r : Resource) : String := r.format.getD ""

/-- Model of one CKAN dataset (package) record: its identifying `name` slug
and its embedded resource list, the fields the code under verification
reads. -/
structure Package where
  name : String
  resources : List Resource
deriving Repr, DecidableEq

/-- Embedding of `has_tabular_distribution` (src/src/opendata.py:136):
keeps the resources whose format equals `"CSV"` or `"parquet"` (exact,
case-sensitive string comparison, as in the source); returns `none`
(modelling `np.nan`) when the kept list is empty. -/
def has_tabular_distribution (dists : List Resource) : Option (List Resource) :=
  let tabular_dists := dists.filter (fun x => x.fmt = "CSV" || x.fmt = "parquet")
  if tabular_dists = [] then none else some tabular_dists

/-- Embedding of `has_geo_distribution` (src/src/opendata.py:149): keeps the
resources whose format equals `"WFS"`; returns `none` (modelling `np.nan`)
when the kept list is empty. -/
def has_geo_distribution (dists : List Resource) : Option (List Resource) :=
  let geo_dists := dists.filter (fun x => x.fmt = "WFS")
  if geo_dists = [] then none else some geo_dists

/-- Embedding of `filter_tabular` (src/src/opendata.py:86): replaces each
row's resources column by `has_tabular_distribution` of it and drops the
rows where that is `none` (the `dropna` step). -/
def filter_tabular (full_df : List Package) : List Package :=
  full_df.filterMap fun row =>
    (has_tabular_distribution row.resources).map fun l => { row with resources := l }

/-- Embedding of `filter_geo` (src/src/opendata.py:94): replaces each row's
resources column by `has_geo_distribution` of it and drops the rows where
that is `none` (the `dropna` step). -/
def filter_geo (full_df : List Package) : List Package :=
  full_df.filterMap fun row =>
    (has_geo_distribution row.resources).map fun l => { row with resources := l }

/-- A parsed tabular file: one list of fields per line. -/
abbrev Table := List (List String)

/-- Model of `url.rsplit(".", 1)[-1]`: the part of the string after its last
dot, or the whole string when it has no dot. -/
def ext (url : String) : String :=
  String.mk ((url.data.reverse.takeWhile fun c => c ≠ '.').reverse)

/-- Splitting a character list on a separator character, the semantics of
Python's `str.split(sep)`: `splitListOn ';' "a;;b"` is `["a", "", "b"]`. -/
def splitListOn (sep : Char) : List Char → List (List Char)
  | [] => [[]]
  | c :: rest =>
    match splitListOn sep rest with
    | [] => [[]]
    | cur :: parts => if c = sep then [] :: cur :: parts else (c :: cur) :: parts

/-- Model of `pd.read_csv(url, sep=sep, ...)` at the level of detail the
code observes: non-blank lines (pandas skips blank lines by default) split
on the one-character separator.  Only the column count and field contents
matter to the claims. -/
def read_csv (sep : Char) (content : String) : Table :=
  ((splitListOn '\n' content.data).filter (fun line => line ≠ [])).map
    fun line => (splitListOn sep line).map String.mk

/-- Python's `str.lower()`: every character lowercased. -/
def lowerStr (s : String) : String := String.mk (s.data.map Char.toLower)

/-- Model of `df.shape[1]`: the number of columns, read off the header
(first) row. -/
def ncols (df : Table) : Nat := (df.headD []).length

/-- Outcome of `get_dataset`: the returned dataframe (`none` models the
Python `None` return) together with which diagnostics were printed. -/
structure GetDatasetResult where
  df : Option Table
  /-- "The data wasn't imported properly. Very likely the correct separator
  couldn't be found. ..." was printed. -/
  separator_diag : Bool
  /-- "Cannot load data! Please provide an url with csv or parquet
  extension." was printed. -/
  unsupported_diag : Bool
deriving Repr, DecidableEq

/-- Embedding of `get_dataset` (src/src/opendata.py:102).  The download is
modelled by passing the file `content` fetched from `url`; `read_parquet`
abstracts the external `pd.read_parquet` decoder used on the parquet
branch.  The csv branch parses with `","`, retries with `";"` when the
result has one column or fewer, and prints the separator diagnostic only
when the retry is also degenerate; an unsupported extension prints a
diagnostic and returns `none`. -/
def get_dataset (read_parquet : String → Table) (url content : String) : GetDatasetResult :=
  let extension := ext url
  if extension = "parquet" then
    { df := some (read_parquet content), separator_diag := false, unsupported_diag := false }
  else if extension = "csv" then
    let df := read_csv ',' content
    if ncols df ≤ 1 then
      let df2 := read_csv ';' content
      if ncols df2 ≤ 1 then
        { df := some df2, separator_diag := true, unsupported_diag := false }
      else
        { df := some df2, separator_diag := false, unsupported_diag := false }
    else
      { df := some df, separator_diag := false, unsupported_diag := false }
  else
    { df := none, separator_diag := false, unsupported_diag := true }

/-- Leftmost match of the regex `\/([^\/\?]+)\?` over a character list, as
`re.search` performs it in `identifier_from_url`: at each position, a `'/'`
matches when the maximal run of following characters other than `'/'` and
`'?'` is non-empty and is immediately followed by `'?'`; greedy matching
with backtracking makes the maximal run the only candidate group. -/
def identScan : List Char → Option (List Char)
  | [] => none
  | c :: rest =>
    if c = '/' then
      let run := rest.takeWhile fun d => d ≠ '/' && d ≠ '?'
      if run ≠ [] ∧ (rest.drop run.length).head? = some '?' then some run
      else identScan rest
    else identScan rest

/-- Embedding of `identifier_from_url` (src/src/opendata.py:158): `none`
models the `AttributeError` raised by `.group(1)` when `re.search` finds no
match. -/
def identifier_from_url (url : String) : Option String :=
  (identScan url.data).map fun cs => String.mk cs

/-- The fixed geoportal base used by `url_to_geoportal_url`. -/
def geoportalBase : String := "https://www.ogd.stadt-zuerich.ch/wfs/geoportal/"

/-- Model of Python's substring test `pat in s` on character lists. -/
def containsSub (pat : List Char) : List Char → Bool
  | [] => pat.isEmpty
  | c :: rest => pat.isPrefixOf (c :: rest) || containsSub pat rest

/-- Embedding of `url_to_geoportal_url` (src/src/opendata.py:167): when an
identifier is extracted the result is the fixed base plus the identifier;
on extraction failure the url passes through unchanged if it contains
`"/wfs/"`, and otherwise the function prints "Could not extract identifier
from url." and returns `None` — the failure outcome the specification names
`ExtractionError`, modelled as `none`. -/
def url_to_geoportal_url (url : String) : Option String :=
  match identifier_from_url url with
  | some identifier => some (geoportalBase ++ identifier)
  | none => if containsSub "/wfs/".data url.data then some url else none

/-- Embedding of `OpenDataPackage.tabular_resource_metadata_df`
(src/src/opendata.py:369): the resource rows whose format is in
`["CSV", "parquet"]`. -/
def tabular_resource_metadata_df (p : Package) : List Resource :=
  p.resources.filter fun r => r.fmt = "CSV" || r.fmt = "parquet"

/-- Embedding of `OpenDataPackage.geo_resource_metadata_df`
(src/src/opendata.py:345): the resource rows whose format is in
`["WFS", "JSON"]`. -/
def geo_resource_metadata_df (p : Package) : List Resource :=
  p.resources.filter fun r => r.fmt = "WFS" || r.fmt = "JSON"

/-- Outcome of a resource lookup: the selected row, or the `IndexError`
that `.iloc[0]` raises on an empty selection — the failure the
specification names `NotFound`. -/
inductive LookupResult where
  | found (r : Resource)
  | indexError
deriving Repr, DecidableEq

/-- Model of `df.iloc[0]`: the first row, or `IndexError` when the frame is
empty. -/
def iloc0 (l : List Resource) : LookupResult :=
  match l with
  | [] => .indexError
  | r :: _ => .found r

/-- Embedding of the id branch of `OpenDataPackage.tabular_resource`
(src/src/opendata.py:376): select the rows of the tabular view whose `id`
equals the given identifier and take `.iloc[0]`. -/
def tabular_resource (p : Package) (id : String) : LookupResult :=
  iloc0 ((tabular_resource_metadata_df p).filter fun r => r.id = id)

/-- Embedding of the id branch of `OpenDataPackage.geo_resource`
(src/src/opendata.py:352): select the rows of the geo view whose `id`
equals the given identifier and take `.iloc[0]`. -/
def geo_resource (p : Package) (id : String) : LookupResult :=
  iloc0 ((geo_resource_metadata_df p).filter fun r => r.id = id)

/-- Decoded JSON body of the `package_show` endpoint: the `success` flag,
the optional `error` payload, and the dataset record used on success. -/
structure ShowResponse where
  success : Bool
  error : Option String
  result : Package
deriving Repr, DecidableEq

/-- Outcome of `OpenDataZH.get_package`: the missing-argument failure
(prints "Please provide either an id or a name." and returns `None` — the
specification's `InvalidArgument`), the remote-failure outcome (prints the
error message and returns `None` — the specification's `NotFound`), or the
wrapped dataset. -/
inductive GetPackageResult where
  | invalidArgument
  | notFound (msg : String)
  | pkg (p : Package)
deriving Repr, DecidableEq

/-- Embedding of `OpenDataZH.get_package` (src/src/opendata.py:267),
parameterised by the decoded response of the one HTTP request it makes. -/
def get_package (id name : Option String) (resp : ShowResponse) : GetPackageResult :=
  if id = none ∧ name = none then .invalidArgument
  else if resp.success = false then .notFound (resp.error.getD "No error message provided.")
  else .pkg resp.result

/-- Observable outcome of the `get_dataset_type` command line run:
`printed word code` is one of the three classification words on stdout
followed by `sys.exit(code)`; `usageError code` is the missing-argument
message followed by `sys.exit(code)`; `crashed` is the uncaught
`AttributeError` hit when `get_package` returned `None` and `main`
dereferences it. -/
inductive CliOutcome where
  | printed (word : String) (code : Nat)
  | usageError (code : Nat)
  | crashed
deriving Repr, DecidableEq

/-- Embedding of `main` in src/src/get_dataset_type.py:6 for a successfully
retrieved package: geo first, then csv, else unknown. -/
def get_dataset_type_main (p : Package) : CliOutcome :=
  if 0 < (geo_resource_metadata_df p).length then .printed "geo" 0
  else if 0 < (tabular_resource_metadata_df p).length then .printed "csv" 0
  else .printed "unknown" 1

/-- Embedding of the whole src/src/get_dataset_type.py entry point:
`args` is `sys.argv[1:]` and `resp` the decoded show-endpoint response for
the given identifier.  With no argument the script prints its usage error
and exits 1; otherwise it calls `get_package(dataset_id)`; when that
returns `None` (remote failure) the subsequent attribute access raises an
uncaught `AttributeError`. -/
def get_dataset_type_cli (args : List String) (resp : ShowResponse) : CliOutcome :=
  match args with
  | [] => .usageError 1
  | arg :: _ =>
    match get_package (some arg) none resp with
    | .pkg p => get_dataset_type_main p
    | _ => .crashed

/-- Embedding of `OpenDataZH._get_package_list_page` (src/src/opendata.py:232),
parameterised by the decoded `result` lists of the list endpoint as a
function `fetch limit offset`: an empty `result` list yields `None` (the
end marker), a non-empty one yields the page dataframe. -/
def get_package_list_page (fetch : Nat → Nat → List Package) (limit offset : Nat) :
    Option (List Package) :=
  match fetch limit offset with
  | [] => none
  | r :: rs => some (r :: rs)

/-- The page-collection loop of `OpenDataZH._get_full_package_list`
(src/src/opendata.py:216): pages are requested at offsets
`offset, offset + limit, offset + 2 * limit, ...` until a page comes back
empty; the collected non-empty pages are returned in order.  The Python
`while True` loop is given explicit fuel; `none` models a run that has not
reached an empty page within the fuel, which the theorems exclude. -/
def collectPages (fetch : Nat → Nat → List Package) (limit : Nat) :
    Nat → Nat → Option (List (List Package))
  | 0, _ => none
  | fuel + 1, offset =>
    match get_package_list_page fetch limit offset with
    | none => some []
    | some page => (collectPages fetch limit fuel (offset + limit)).map fun rest => page :: rest

/-- The order used by `df.set_index("name").sort_index()`: ascending by the
`name` column, in the standard lexicographic `String` order. -/
def nameLe (a b : Package) : Prop := a.name ≤ b.name

instance : DecidableRel nameLe := fun a b => inferInstanceAs (Decidable (a.name ≤ b.name))

instance : IsTotal Package nameLe := ⟨fun a b => le_total a.name b.name⟩

instance : IsTrans Package nameLe := ⟨fun _ _ _ h h' => le_trans h h'⟩

/-- Model of `df.set_index("name", drop=False).sort_index()`: a sort of the
rows ascending by name (pandas keeps rows with equal index values; nothing
is deduplicated). -/
def sortByName (l : List Package) : List Package := List.insertionSort nameLe l

/-- Embedding of `OpenDataZH._get_full_package_list` (src/src/opendata.py:216):
collect pages until the first empty one, `pd.concat` the collected frames —
which raises `ValueError` ("No objects to concatenate") when no frame was
collected, modelled as `Except.error` — and sort the concatenation by name.
The outer `Option` is the loop fuel of `collectPages`. -/
def get_full_package_list (fetch : Nat → Nat → List Package) (limit fuel : Nat) :
    Option (Except String (List Package)) :=
  (collectPages fetch limit fuel 0).map fun frames =>
    if frames = [] then .error "No objects to concatenate"
    else .ok (sortByName frames.flatten)

/-! Concrete records used by the counterexamples and witnesses below. -/

/-- A resource whose format is the lowercase `"csv"`. -/
def csvLower : Resource := { format := some "csv", id := "r1", url := "u1" }

/-- A resource whose format is the exact `"CSV"`. -/
def csvUpper : Resource := { format := some "CSV", id := "r2", url := "u2" }

/-- A resource whose format is the exact `"parquet"`. -/
def parquetRes : Resource := { format := some "parquet", id := "r3", url := "u3" }

/-- A resource whose format is the exact `"WFS"`. -/
def wfsRes : Resource := { format := some "WFS", id := "r4", url := "u4" }

/-- A dataset record named `"a"` with no resources. -/
def pkgA : Package := { name := "a", resources := [] }

/-- A dataset record with one tabular and one geo resource. -/
def pkgMix : Package := { name := "d", resources := [csvUpper, wfsRes] }

/-- A dataset record whose only resource is geo. -/
def pkgGeoOnly : Package := { name := "g", resources := [wfsRes] }

/-- A paginated fetch answering the same record named `"a"` on the pages at
offsets `0` and `500` and the empty end marker beyond. -/
def dupFetch : Nat → Nat → List Package :=
  fun _ offset => if offset = 0 then [pkgA] else if offset = 500 then [pkgA] else []

/-- A paginated fetch whose very first page is already the end marker. -/
def emptyFetch : Nat → Nat → List Package := fun _ _ => []

/-- A show-endpoint response reporting failure. -/
def failResp : ShowResponse :=
  { success := false, error := some "Not found", result := { name := "x", resources := [] } }

/-- A show-endpoint response reporting success with one WFS resource. -/
def okGeoResp : ShowResponse :=
  { success := true, error := none, result := { name := "geo-ds", resources := [wfsRes] } }

end OpendataZH

namespace OpendataZH

/-- Claim C2 as written asserts the tabular classifier keeps resources
whose format case-insensitively equals `"CSV"` or `"parquet"`.  The source
compares with `==` against the exact strings `"CSV"` and `"parquet"`, so a
resource whose format is the lowercase `"csv"` — which the claim says is
classified tabular — is dropped, and with no other resource present the
classifier returns the absent marker. -/
theorem C2_counterexample :
    lowerStr csvLower.fmt = "csv" ∧ has_tabular_distribution [csvLower] = none :=
  ⟨rfl, rfl⟩

/-- Claim C2 (amended): the tabular classifier keeps exactly those
resources whose format field exactly (case-sensitively) equals `"CSV"` or
`"parquet"`; it returns the absent marker precisely when no resource's
format is exactly one of the two. -/
theorem C2_exact_format_match (dists : List Resource) :
    (∀ l, has_tabular_distribution dists = some l →
      ∀ r, r ∈ l ↔ r ∈ dists ∧ (r.fmt = "CSV" ∨ r.fmt = "parquet")) ∧
    (has_tabular_distribution dists = none ↔
      ∀ r ∈ dists, ¬(r.fmt = "CSV" ∨ r.fmt = "parquet")) := by
  constructor
  · intro l hl r
    unfold has_tabular_distribution at hl
    by_cases hnil : dists.filter (fun x => x.fmt = "CSV" || x.fmt = "parquet") = []
    · simp [hnil] at hl
    · rw [if_neg hnil] at hl
      cases hl
      simp [List.mem_filter]
  · unfold has_tabular_distribution
    by_cases hnil : dists.filter (fun x => x.fmt = "CSV" || x.fmt = "parquet") = []
    · rw [if_pos hnil]
      simp only [true_iff]
      rw [List.filter_eq_nil_iff] at hnil
      intro r hr
      have := hnil r hr
      simpa using this
    · rw [if_neg hnil]
      simp only [reduceCtorEq, false_iff]
      push_neg
      obtain ⟨r, hr⟩ := List.exists_mem_of_ne_nil _ hnil
      have hmem := List.mem_filter.mp hr
      exact ⟨r, hmem.1, by simpa using hmem.2⟩

/-- Witness for the amended claim C2 at a concrete input: the classifier
applied to a two-resource list keeps exactly the resource whose format is
the exact string `"CSV"`. -/
theorem C2_exact_format_match_witness :
    csvUpper ∈ [csvUpper, csvLower] ∧ (csvUpper.fmt = "CSV" ∨ csvUpper.fmt = "parquet") :=
  ((C2_exact_format_match [csvUpper, csvLower]).1 [csvUpper] rfl csvUpper).mp (by decide)

/-- Claim C8: classification is a pure partition.  No resource passes both
the tabular and the geo format test; on disjoint kept lists no record is in
both; and each classifier applied to its own kept output returns that
output unchanged. -/
theorem C8_partition (r : Resource) (dists l : List Resource) :
    ¬((r.fmt = "CSV" ∨ r.fmt = "parquet") ∧ r.fmt = "WFS") ∧
    (has_tabular_distribution dists = some l → has_tabular_distribution l = some l) ∧
    (has_geo_distribution dists = some l → has_geo_distribution l = some l) ∧
    (∀ tl gl, has_tabular_distribution dists = some tl →
      has_geo_distribution dists = some gl → ∀ x ∈ tl, x ∉ gl) := by
  refine ⟨?_, ?_, ?_, ?_⟩
  · rintro ⟨h | h, hw⟩ <;> rw [hw] at h <;> exact absurd h (by decide)
  · intro h
    unfold has_tabular_distribution at h ⊢
    by_cases hnil : dists.filter (fun x => x.fmt = "CSV" || x.fmt = "parquet") = []
    · simp [hnil] at h
    · rw [if_neg hnil] at h
      cases h
      have hself := List.filter_eq_self.mpr
        (fun a ha => (List.mem_filter.mp ha).2 :
          ∀ a ∈ dists.filter (fun x => x.fmt = "CSV" || x.fmt = "parquet"), _)
      rw [hself, if_neg hnil]
  · intro h
    unfold has_geo_distribution at h ⊢
    by_cases hnil : dists.filter (fun x => x.fmt = "WFS") = []
    · simp [hnil] at h
    · rw [if_neg hnil] at h
      cases h
      have hself := List.filter_eq_self.mpr
        (fun a ha => (List.mem_filter.mp ha).2 :
          ∀ a ∈ dists.filter (fun x => x.fmt = "WFS"), _)
      rw [hself, if_neg hnil]
  · intro tl gl htl hgl x hx hxg
    unfold has_tabular_distribution at htl
    unfold has_geo_distribution at hgl
    by_cases h1 : dists.filter (fun x => x.fmt = "CSV" || x.fmt = "parquet") = []
    · simp [h1] at htl
    · rw [if_neg h1] at htl
      cases htl
      by_cases h2 : dists.filter (fun x => x.fmt = "WFS") = []
      · simp [h2] at hgl
      · rw [if_neg h2] at hgl
        cases hgl
        have hxt := (List.mem_filter.mp hx).2
        have hxw := (List.mem_filter.mp hxg).2
        simp only [Bool.or_eq_true, decide_eq_true_eq] at hxt hxw
        rcases hxt with h | h <;> rw [hxw] at h <;> exact absurd h (by decide)

/-- Witness for claim C8 at concrete inputs: each classifier reproduces its
own output. -/
theorem C8_partition_witness :
    has_tabular_distribution [csvUpper] = some [csvUpper] ∧
    has_geo_distribution [wfsRes] = some [wfsRes] :=
  ⟨(C8_partition csvUpper [csvUpper] [csvUpper]).2.1 rfl,
   (C8_partition wfsRes [wfsRes] [wfsRes]).2.2.1 rfl⟩

/-- Claim C7: when no resource matches, the classifiers return the absent
marker `none` (never `some []`), and the catalogue-level filters drop the
rows of such datasets: every surviving row stems from a row whose
classifier output was present, and a table all of whose rows classify to
`none` filters to the empty table. -/
theorem C7_absent_marker (dists : List Resource) (rows : List Package) :
    has_tabular_distribution dists ≠ some [] ∧
    has_geo_distribution dists ≠ some [] ∧
    ((∀ r ∈ dists, ¬(r.fmt = "CSV" ∨ r.fmt = "parquet")) →
      has_tabular_distribution dists = none) ∧
    ((∀ r ∈ dists, r.fmt ≠ "WFS") → has_geo_distribution dists = none) ∧
    (∀ w ∈ filter_tabular rows, ∃ row, row ∈ rows ∧
      w.name = row.name ∧ has_tabular_distribution row.resources = some w.resources) ∧
    (∀ w ∈ filter_geo rows, ∃ row, row ∈ rows ∧
      w.name = row.name ∧ has_geo_distribution row.resources = some w.resources) ∧
    ((∀ row ∈ rows, has_tabular_distribution row.resources = none) →
      filter_tabular rows = []) ∧
    ((∀ row ∈ rows, has_geo_distribution row.resources = none) → filter_geo rows = []) := by
  refine ⟨?_, ?_, ?_, ?_, ?_, ?_, ?_, ?_⟩
  · intro h
    unfold has_tabular_distribution at h
    by_cases hnil : dists.filter (fun x => x.fmt = "CSV" || x.fmt = "parquet") = []
    · simp [hnil] at h
    · rw [if_neg hnil] at h
      exact hnil (Option.some.inj h)
  · intro h
    unfold has_geo_distribution at h
    by_cases hnil : dists.filter (fun x => x.fmt = "WFS") = []
    · simp [hnil] at h
    · rw [if_neg hnil] at h
      exact hnil (Option.some.inj h)
  · intro h
    unfold has_tabular_distribution
    rw [if_pos (List.filter_eq_nil_iff.mpr fun r hr => by simpa using h r hr)]
  · intro h
    unfold has_geo_distribution
    rw [if_pos (List.filter_eq_nil_iff.mpr fun r hr => by simpa using h r hr)]
  · intro w hw
    obtain ⟨row, hrow, hf⟩ := List.mem_filterMap.mp hw
    obtain ⟨l, hl, hwl⟩ := Option.map_eq_some'.mp hf
    exact ⟨row, hrow, by rw [← hwl], by rw [← hwl]; exact hl⟩
  · intro w hw
    obtain ⟨row, hrow, hf⟩ := List.mem_filterMap.mp hw
    obtain ⟨l, hl, hwl⟩ := Option.map_eq_some'.mp hf
    exact ⟨row, hrow, by rw [← hwl], by rw [← hwl]; exact hl⟩
  · intro h
    exact List.filterMap_eq_nil_iff.mpr fun row hrow => by rw [h row hrow]; rfl
  · intro h
    exact List.filterMap_eq_nil_iff.mpr fun row hrow => by rw [h row hrow]; rfl

/-- Witness for claim C7 at concrete inputs: a geo-only resource list gets
the absent marker from the tabular classifier, and a catalogue of one
geo-only dataset filters to the empty tabular catalogue. -/
theorem C7_absent_marker_witness :
    has_tabular_distribution [wfsRes] = none ∧ filter_tabular [pkgGeoOnly] = [] :=
  ⟨(C7_absent_marker [wfsRes] []).2.2.1 (by decide),
   (C7_absent_marker [] [pkgGeoOnly]).2.2.2.2.2.2.1
     (by intro row h; rw [List.mem_singleton] at h; subst h; rfl)⟩

/-- Claim C5: looking a resource up by identifier in the tabular or geo
view returns the unique matching record — whenever the selection by `id`
has exactly one row, that row is returned, and any returned row belongs to
the view and has the requested `id` — and when no row matches, or the view
itself is empty, the lookup ends in the error outcome (`.iloc[0]` on an
empty selection, the condition the specification names `NotFound`) instead
of silently returning nothing. -/
theorem C5_lookup_by_id (p : Package) (id : String) :
    (∀ r, (tabular_resource_metadata_df p).filter (fun x => x.id = id) = [r] →
      tabular_resource p id = .found r) ∧
    (∀ r, tabular_resource p id = .found r →
      r ∈ tabular_resource_metadata_df p ∧ r.id = id) ∧
    ((∀ r ∈ tabular_resource_metadata_df p, r.id ≠ id) →
      tabular_resource p id = .indexError) ∧
    (tabular_resource_metadata_df p = [] → tabular_resource p id = .indexError) ∧
    (∀ r, (geo_resource_metadata_df p).filter (fun x => x.id = id) = [r] →
      geo_resource p id = .found r) ∧
    (∀ r, geo_resource p id = .found r → r ∈ geo_resource_metadata_df p ∧ r.id = id) ∧
    ((∀ r ∈ geo_resource_metadata_df p, r.id ≠ id) → geo_resource p id = .indexError) ∧
    (geo_resource_metadata_df p = [] → geo_resource p id = .indexError) := by
  refine ⟨?_, ?_, ?_, ?_, ?_, ?_, ?_, ?_⟩
  · intro r h
    unfold tabular_resource
    rw [h]
    rfl
  · intro r h
    unfold tabular_resource iloc0 at h
    cases hf : (tabular_resource_metadata_df p).filter (fun x => x.id = id) with
    | nil => rw [hf] at h; cases h
    | cons x xs =>
      rw [hf] at h
      cases h
      have hx : r ∈ (tabular_resource_metadata_df p).filter (fun x => x.id = id) := by
        rw [hf]; exact List.mem_cons_self _ _
      have := List.mem_filter.mp hx
      exact ⟨this.1, by simpa using this.2⟩
  · intro h
    unfold tabular_resource
    rw [List.filter_eq_nil_iff.mpr fun r hr => by simpa using h r hr]
    rfl
  · intro h
    unfold tabular_resource
    rw [h]
    rfl
  · intro r h
    unfold geo_resource
    rw [h]
    rfl
  · intro r h
    unfold geo_resource iloc0 at h
    cases hf : (geo_resource_metadata_df p).filter (fun x => x.id = id) with
    | nil => rw [hf] at h; cases h
    | cons x xs =>
      rw [hf] at h
      cases h
      have hx : r ∈ (geo_resource_metadata_df p).filter (fun x => x.id = id) := by
        rw [hf]; exact List.mem_cons_self _ _
      have := List.mem_filter.mp hx
      exact ⟨this.1, by simpa using this.2⟩
  · intro h
    unfold geo_resource
    rw [List.filter_eq_nil_iff.mpr fun r hr => by simpa using h r hr]
    rfl
  · intro h
    unfold geo_resource
    rw [h]
    rfl

/-- Witness for claim C5 at a concrete input: in a dataset with one tabular
and one geo resource, the tabular lookup by the tabular resource's id
returns that resource. -/
theorem C5_lookup_by_id_witness : tabular_resource pkgMix "r2" = .found csvUpper :=
  (C5_lookup_by_id pkgMix "r2").1 csvUpper rfl

/-- Claim C6: `get_package` ends in the `InvalidArgument` outcome when
neither an id nor a name is supplied, ends in the `NotFound` outcome
carrying the remote's error message (or the readable default) whenever the
remote reports failure, and returns a dataset wrapper exactly when an
identifier was supplied and the remote reports success. -/
theorem C6_get_package_errors (id name : Option String) (resp : ShowResponse) :
    (id = none → name = none → get_package id name resp = .invalidArgument) ∧
    (¬(id = none ∧ name = none) → resp.success = false →
      get_package id name resp = .notFound (resp.error.getD "No error message provided.")) ∧
    (∀ p, get_package id name resp = .pkg p ↔
      ¬(id = none ∧ name = none) ∧ resp.success = true ∧ p = resp.result) := by
  refine ⟨?_, ?_, ?_⟩
  · intro h1 h2
    unfold get_package
    rw [if_pos ⟨h1, h2⟩]
  · intro h hf
    unfold get_package
    rw [if_neg h, if_pos hf]
  · intro p
    unfold get_package
    by_cases h : id = none ∧ name = none
    · rw [if_pos h]
      simp [h]
    · rw [if_neg h]
      by_cases hs : resp.success = false
      · rw [if_pos hs]
        simp [hs]
      · rw [if_neg hs]
        rw [Bool.not_eq_false] at hs
        simp only [GetPackageResult.pkg.injEq]
        constructor
        · intro hp
          exact ⟨h, hs, hp.symm⟩
        · intro hp
          exact hp.2.2.symm

/-- Witness for claim C6 at a concrete input: a failing show response with
an error payload yields the `NotFound` outcome carrying that message. -/
theorem C6_get_package_errors_witness :
    get_package (some "x") none failResp = .notFound "Not found" :=
  (C6_get_package_errors (some "x") none failResp).2.1 (by simp) rfl

/-- Claim C3: when the comma parse of a csv url's payload has one or zero
columns, the fetcher retries with the semicolon separator; if the retry has
more than one column, the semicolon-parsed table is returned with no
degenerate-parse diagnostic, and only if the retry still has one or zero
columns is the diagnostic emitted and the degenerate table returned
as-is. -/
theorem C3_csv_delimiter_fallback (read_parquet : String → Table) (url content : String)
    (hext : ext url = "csv") (hcomma : ncols (read_csv ',' content) ≤ 1) :
    (1 < ncols (read_csv ';' content) →
      get_dataset read_parquet url content =
        { df := some (read_csv ';' content), separator_diag := false,
          unsupported_diag := false }) ∧
    (ncols (read_csv ';' content) ≤ 1 →
      get_dataset read_parquet url content =
        { df := some (read_csv ';' content), separator_diag := true,
          unsupported_diag := false }) := by
  constructor
  · intro hsemi
    unfold get_dataset
    rw [hext, if_neg (by decide), if_pos rfl, if_pos hcomma, if_neg (not_le.mpr hsemi)]
  · intro hsemi
    unfold get_dataset
    rw [hext, if_neg (by decide), if_pos rfl, if_pos hcomma, if_pos hsemi]

/-- Witness for claim C3 at the specification's example input: the payload
`"a;b;c\n1;2;3\n"` parses to one column with comma, the semicolon retry
yields three columns, and the fetcher returns the semicolon table with no
diagnostic. -/
theorem C3_csv_delimiter_fallback_witness :
    get_dataset (fun _ => []) "data.csv" "a;b;c\n1;2;3\n" =
      { df := some [["a", "b", "c"], ["1", "2", "3"]], separator_diag := false,
        unsupported_diag := false } := by
  have h := (C3_csv_delimiter_fallback (fun _ => []) "data.csv" "a;b;c\n1;2;3\n"
    rfl (by decide)).1 (by decide)
  rw [h]
  rfl

/-- Claim C4: geoportal URL resolution.  When an identifier (a path segment
immediately followed by `?`) is extracted, the result is the fixed
geoportal base plus the identifier; when extraction fails and the url
contains a `"/wfs/"` segment, the url passes through unchanged; when
extraction fails on a non-WFS url the operation ends in the failure outcome
the specification names `ExtractionError` (diagnostic printed, `None`
returned). -/
theorem C4_geoportal_url_resolution (url : String) :
    (∀ identifier, identifier_from_url url = some identifier →
      url_to_geoportal_url url = some (geoportalBase ++ identifier)) ∧
    (identifier_from_url url = none → containsSub "/wfs/".data url.data = true →
      url_to_geoportal_url url = some url) ∧
    (identifier_from_url url = none → containsSub "/wfs/".data url.data = false →
      url_to_geoportal_url url = none) := by
  refine ⟨?_, ?_, ?_⟩
  · intro identifier h
    unfold url_to_geoportal_url
    rw [h]
  · intro h hwfs
    unfold url_to_geoportal_url
    rw [h]
    simp [hwfs]
  · intro h hwfs
    unfold url_to_geoportal_url
    rw [h]
    simp [hwfs]

/-- Witness for claim C4 at the specification's example input: the
identifier `abc123` is extracted and the url is rewritten to the fixed
geoportal base plus the identifier. -/
theorem C4_geoportal_url_resolution_witness :
    url_to_geoportal_url "https://example.com/abc123?other=param" =
      some "https://www.ogd.stadt-zuerich.ch/wfs/geoportal/abc123" := by
  have h := (C4_geoportal_url_resolution "https://example.com/abc123?other=param").1
    "abc123" rfl
  rw [h]
  rfl

/-- Claim C9 as written asserts the command prints one of `geo`, `csv`,
`unknown` for every dataset identifier argument.  But when the remote
reports failure for the identifier, `get_package` returns `None` and
`main` then dereferences it, so the run ends in an uncaught
`AttributeError` and none of the three words is printed. -/
theorem C9_counterexample :
    get_dataset_type_cli ["some-id"] failResp = .crashed ∧
    CliOutcome.crashed ≠ .printed "geo" 0 ∧
    CliOutcome.crashed ≠ .printed "csv" 0 ∧
    CliOutcome.crashed ≠ .printed "unknown" 1 :=
  ⟨rfl, by decide, by decide, by decide⟩

/-- Claim C9 (amended): when no identifier argument is supplied the command
exits 1 with a usage error; when an identifier is supplied and the remote
show endpoint reports success, the command prints exactly one of `geo`
(exit 0), `csv` (exit 0) or `unknown` (exit 1); when the remote reports
failure the command terminates with an uncaught error instead of printing
any of the three. -/
theorem C9_dataset_type_output (args : List String) (resp : ShowResponse) :
    (args = [] → get_dataset_type_cli args resp = .usageError 1) ∧
    (∀ arg rest, args = arg :: rest → resp.success = true →
      (get_dataset_type_cli args resp = .printed "geo" 0 ∨
       get_dataset_type_cli args resp = .printed "csv" 0 ∨
       get_dataset_type_cli args resp = .printed "unknown" 1)) ∧
    (∀ arg rest, args = arg :: rest → resp.success = false →
      get_dataset_type_cli args resp = .crashed) := by
  refine ⟨?_, ?_, ?_⟩
  · intro h
    subst h
    rfl
  · intro arg rest harg hsucc
    subst harg
    have hpkg : get_package (some arg) none resp = .pkg resp.result := by
      unfold get_package
      rw [if_neg (by simp), if_neg (by simp [hsucc])]
    simp only [get_dataset_type_cli, hpkg]
    unfold get_dataset_type_main
    by_cases h1 : 0 < (geo_resource_metadata_df resp.result).length
    · rw [if_pos h1]
      exact Or.inl rfl
    · rw [if_neg h1]
      by_cases h2 : 0 < (tabular_resource_metadata_df resp.result).length
      · rw [if_pos h2]
        exact Or.inr (Or.inl rfl)
      · rw [if_neg h2]
        exact Or.inr (Or.inr rfl)
  · intro arg rest harg hfail
    subst harg
    have hpkg : get_package (some arg) none resp =
        .notFound (resp.error.getD "No error message provided.") := by
      unfold get_package
      rw [if_neg (by simp), if_pos hfail]
    simp only [get_dataset_type_cli, hpkg]

/-- Witness for the amended claim C9 at a concrete input: with a successful
show response holding one WFS resource, the command prints one of the three
words with the matching exit code. -/
theorem C9_dataset_type_output_witness :
    get_dataset_type_cli ["abc"] okGeoResp = .printed "geo" 0 ∨
    get_dataset_type_cli ["abc"] okGeoResp = .printed "csv" 0 ∨
    get_dataset_type_cli ["abc"] okGeoResp = .printed "unknown" 1 :=
  (C9_dataset_type_output ["abc"] okGeoResp).2.1 "abc" [] rfl rfl

/-- Structure of a terminating run of the pagination loop: every collected
page is non-empty, the page requested right after the collected ones is the
empty end marker, and the `i`-th collected page is exactly the fetch at
offset `limit * i` past the start. -/
theorem collectPages_spec (fetch : Nat → Nat → List Package) (limit : Nat) :
    ∀ (fuel offset : Nat) (frames : List (List Package)),
      collectPages fetch limit fuel offset = some frames →
      (∀ page ∈ frames, page ≠ []) ∧
      fetch limit (offset + limit * frames.length) = [] ∧
      (∀ i, (hi : i < frames.length) →
        frames.get ⟨i, hi⟩ = fetch limit (offset + limit * i)) := by
  intro fuel
  induction fuel with
  | zero =>
    intro offset frames h
    exact absurd h (by simp [collectPages])
  | succ n ih =>
    intro offset frames h
    unfold collectPages get_package_list_page at h
    cases hf : fetch limit offset with
    | nil =>
      rw [hf] at h
      simp only [Option.some.injEq] at h
      subst h
      refine ⟨by simp, ?_, by simp⟩
      simpa using hf
    | cons x xs =>
      rw [hf] at h
      simp only [Option.map_eq_some'] at h
      obtain ⟨rest, hrest, hfr⟩ := h
      subst hfr
      obtain ⟨hne, hend, hidx⟩ := ih (offset + limit) rest hrest
      refine ⟨?_, ?_, ?_⟩
      · intro page hp
        rcases List.mem_cons.mp hp with hp | hp
        · subst hp
          simp
        · exact hne page hp
      · rw [List.length_cons, show offset + limit * (rest.length + 1) =
          offset + limit + limit * rest.length by ring]
        exact hend
      · intro i hi
        match i with
        | 0 =>
          simpa using hf.symm
        | Nat.succ j =>
          have hj : j < rest.length := by
            simpa [List.length_cons] using hi
          have := hidx j hj
          simp only [List.get_cons_succ]
          rw [this, show offset + limit + limit * j = offset + limit * (j + 1) by ring]

/-- Claim C1 as written asserts the returned catalogue is deduplicated by
name.  The source only sorts (`set_index("name").sort_index()`) and never
deduplicates, so a fetch whose pages at offsets 0 and 500 each hold a
record named `"a"` yields a catalogue with two records of the same name. -/
theorem C1_counterexample :
    get_full_package_list dupFetch 500 3 = some (.ok [pkgA, pkgA]) ∧
    ¬ ([pkgA, pkgA].map Package.name).Nodup := by
  constructor
  · have hc : collectPages dupFetch 500 3 0 = some [[pkgA], [pkgA]] := rfl
    have hflat : ([[pkgA], [pkgA]] : List (List Package)).flatten = [pkgA, pkgA] := rfl
    have hsort : sortByName [pkgA, pkgA] = [pkgA, pkgA] := by
      unfold sortByName
      simp only [List.insertionSort, List.orderedInsert]
      rw [ite_self]
    unfold get_full_package_list
    rw [hc]
    simp only [Option.map_some']
    rw [if_neg (by decide), hflat, hsort]
  · decide

/-- Claim C1 (amended): the full-catalogue retrieval concatenates exactly
the non-empty pages fetched before the first empty page — the `i`-th
collected page is the fetch at offset `limit * i`, every collected page is
non-empty, and the fetch right after the collected pages is empty — and
returns their concatenation sorted by dataset name ascending as a
permutation (nothing is deduplicated, so records sharing a name all
remain). -/
theorem C1_full_list_sorted_concat (fetch : Nat → Nat → List Package) (limit fuel : Nat)
    (frames : List (List Package)) (h : collectPages fetch limit fuel 0 = some frames)
    (hne : frames ≠ []) :
    get_full_package_list fetch limit fuel = some (.ok (sortByName frames.flatten)) ∧
    (∀ page ∈ frames, page ≠ []) ∧
    fetch limit (limit * frames.length) = [] ∧
    (∀ i, (hi : i < frames.length) → frames.get ⟨i, hi⟩ = fetch limit (limit * i)) ∧
    (sortByName frames.flatten).Perm frames.flatten ∧
    List.Sorted nameLe (sortByName frames.flatten) := by
  obtain ⟨h1, h2, h3⟩ := collectPages_spec fetch limit fuel 0 frames h
  refine ⟨?_, h1, by simpa using h2, ?_, ?_, ?_⟩
  · unfold get_full_package_list
    rw [h]
    simp only [Option.map_some']
    rw [if_neg hne]
  · intro i hi
    simpa using h3 i hi
  · exact List.perm_insertionSort nameLe frames.flatten
  · exact List.sorted_insertionSort nameLe frames.flatten

/-- Witness for the amended claim C1 at a concrete input: the two-page
fetch returning a record named `"a"` on each page produces the sorted,
non-deduplicated concatenation of its pages. -/
theorem C1_full_list_sorted_concat_witness :
    get_full_package_list dupFetch 500 3 =
      some (.ok (sortByName ([[pkgA], [pkgA]] : List (List Package)).flatten)) :=
  (C1_full_list_sorted_concat dupFetch 500 3 [[pkgA], [pkgA]] rfl (by decide)).1

/-- Claim C10: when the very first page request already returns the end
marker, no frame is collected and `pd.concat([])` raises `ValueError`
("No objects to concatenate") instead of returning an empty catalogue; the
retrieval returns normally only when the first page is non-empty. -/
theorem C10_empty_first_page (fetch : Nat → Nat → List Package) (limit fuel : Nat) :
    (1 ≤ fuel → fetch limit 0 = [] →
      get_full_package_list fetch limit fuel = some (.error "No objects to concatenate")) ∧
    (∀ df, get_full_package_list fetch limit fuel = some (.ok df) → fetch limit 0 ≠ []) := by
  constructor
  · intro hfuel hempty
    match fuel, hfuel with
    | Nat.succ n, _ =>
      have hc : collectPages fetch limit (n + 1) 0 = some [] := by
        unfold collectPages get_package_list_page
        rw [hempty]
      unfold get_full_package_list
      rw [hc]
      simp
  · intro df h hempty
    match fuel with
    | 0 => exact absurd h (by simp [get_full_package_list, collectPages])
    | Nat.succ n =>
      have hc : collectPages fetch limit (n + 1) 0 = some [] := by
        unfold collectPages get_package_list_page
        rw [hempty]
      unfold get_full_package_list at h
      rw [hc] at h
      simp at h

/-- Witness for claim C10 at a concrete input: a fetch whose first page is
empty makes the retrieval end in the concatenation error. -/
theorem C10_empty_first_page_witness :
    get_full_package_list emptyFetch 500 1 = some (.error "No objects to concatenate") :=
  (C10_empty_first_page emptyFetch 500 1).1 (by decide) rfl

end OpendataZH
